import Mathlib

/-!
Verification of the julseb-lib-server-flask authentication and
credential-lifecycle subsystem (src/routes/auth.py, src/routes/users.py).

The embedding models Python/Mongo documents as association lists of an
inductive value type, bcrypt hashing as an abstract salt/plaintext pair
whose check succeeds exactly on the hashed plaintext, and JWT HS256
signing as a payload/secret pair whose decoding succeeds exactly under
the minting secret. Each Flask route becomes a pure function from the
database state and the request JSON body to an optional response paired
with the new database state; a `none` result models an uncaught Python
exception (KeyError, AttributeError, driver error), which surfaces as an
HTTP 500 rather than a handled JSON response.
-/

/-- Abstract bcrypt hash record produced by `hashpw(password, gensalt(10))`.
The `salt` field models the randomized salt, `pw` the hashed plaintext.
The source stores `str(hashed_pw.decode("utf-8").removeprefix("b"))`; since
a bcrypt digest string begins with a dollar sign, the decode/removeprefix
round trip is the identity on the digest, so the stored value is modelled
as the digest itself. -/
structure Bcrypt where
  salt : Nat
  pw : String
deriving DecidableEq

/-- Models `bcrypt.hashpw(password.encode("utf-8"), gensalt(10))`. -/
def hashpw (password : String) (salt : Nat) : Bcrypt :=
  { salt := salt, pw := password }

/-- Models `bcrypt.checkpw(candidate.encode("utf-8"), stored)`: succeeds
exactly when the candidate equals the hashed plaintext. -/
def checkpw (candidate : String) (stored : Bcrypt) : Bool :=
  stored.pw == candidate

/-- Values of JSON bodies and Mongo documents as the routes use them.
`vNull` is the Python `None` (JSON `null`); `vHash` a stored bcrypt digest
string; `vDate` a Python `datetime` whose `isoformat()` is the carried
string (the seed script stores datetimes, the signup route stores the
already-converted ISO strings). -/
inductive Val where
  | vStr : String → Val
  | vBool : Bool → Val
  | vNull : Val
  | vHash : Bcrypt → Val
  | vDate : String → Val
deriving DecidableEq

/-- A Python dict / Mongo document: ordered key-value pairs, first key wins. -/
abbrev Doc := List (String × Val)

/-- Dict indexing `d[k]`: the first binding of `k`, `none` when `k` is absent
(a `KeyError` at the call sites that index directly). -/
def getKey : Doc → String → Option Val
  | [], _ => none
  | kv :: rest, k => if kv.1 = k then some kv.2 else getKey rest k

/-- Python `d.get(k)`: like indexing but yielding `None` when absent. -/
def pyGet (d : Doc) (k : String) : Val :=
  (getKey d k).getD Val.vNull

/-- Dict assignment `d[k] = v`: replaces the first binding of `k`, or appends
a new binding, preserving insertion order as Python dicts do. -/
def insertKey : Doc → String → Val → Doc
  | [], k, v => [(k, v)]
  | kv :: rest, k, v => if kv.1 = k then (k, v) :: rest else kv :: insertKey rest k v

/-- Mongo `$set` with a patch document: assign every patch binding in order. -/
def setFields (d : Doc) (patch : Doc) : Doc :=
  patch.foldl (fun acc kv => insertKey acc kv.1 kv.2) d

/-- Python `value.isoformat()`: defined only on datetimes; on any other value
the call raises `AttributeError` (modelled `none`). -/
def isoformat : Val → Option Val
  | Val.vDate s => some (Val.vStr s)
  | _ => none

/-- Mongo equality filter `{k: v}` on one document: a `null` filter value
matches documents where the field is missing or null; any other value
matches the field exactly. -/
def mongoFieldEq (d : Doc) (k : String) (v : Val) : Bool :=
  match v with
  | Val.vNull => decide (pyGet d k = Val.vNull)
  | _ => decide (getKey d k = some v)

/-- Mongo `find_one`: the first document of the collection satisfying the
filter, in natural order. -/
def findOne (p : Doc → Bool) : List Doc → Option Doc
  | [] => none
  | d :: rest => if p d then some d else findOne p rest

/-- Mongo `find_one_and_update(filter, {"$set": patch})`: applies the patch
to the first matching document, leaving the rest of the collection as is. -/
def updateFirst (p : Doc → Bool) (patch : Doc) : List Doc → List Doc
  | [] => []
  | d :: rest => if p d then setFields d patch :: rest else d :: updateFirst p patch rest

/-- A JWT produced by `jwt.encode({"user": u}, key=secret, algorithm="HS256")`:
the embedded user payload together with the signing secret. The HMAC is
idealized as collision-free across distinct secrets. -/
structure Jwt where
  payloadUser : Doc
  key : String
deriving DecidableEq

/-- Models `jwt.encode({"user": u}, key=secret, algorithm="HS256")`. -/
def jwtEncode (u : Doc) (secret : String) : Jwt :=
  { payloadUser := u, key := secret }

/-- Models `jwt.decode(token, key=secret, algorithms=["HS256"])`: returns the
embedded user exactly when the verification secret is the minting secret,
and fails (`jwt.InvalidTokenError`) otherwise. -/
def jwtDecode (tok : Jwt) (secret : String) : Option Doc :=
  if tok.key = secret then some tok.payloadUser else none

/-- JSON responses the routes can hand back: an error message (HTTP 400/401),
a user object with a fresh auth token, a bare user object (the loggedin
route), or a bare success message. -/
inductive Resp where
  | err : String → Resp
  | okUser : Doc → Jwt → Resp
  | okUserOnly : Doc → Resp
  | okMsg : String → Resp
deriving DecidableEq

/-- The created-user dict literal of the signup route: the whole request body
spread first, then the controlled fields overwriting any same-named body
entries, the two timestamps already converted to their ISO strings, and the
assigned id. -/
def signupDoc (data : Doc) (fullNameV emailV : Val) (password : String)
    (salt : Nat) (avatar verifyToken newId createdIso updatedIso : String) : Doc :=
  insertKey (insertKey (insertKey (insertKey (insertKey (insertKey (insertKey
    (insertKey (insertKey (insertKey data
      "fullName" fullNameV)
      "email" emailV)
      "password" (Val.vHash (hashpw password salt)))
      "avatar" (Val.vStr avatar))
      "role" (Val.vStr "user"))
      "verified" (Val.vBool false))
      "verifyToken" (Val.vStr verifyToken))
      "created_at" (Val.vStr createdIso))
      "updated_at" (Val.vStr updatedIso))
    "_id" (Val.vStr newId)

/-- POST /auth/signup. The route reads fullName, email and password from the
body (KeyError when absent), rejects an already-registered email, hashes the
password, builds the created document by spreading the whole body and then
overwriting the controlled fields, converts the two timestamps to ISO
strings before inserting, inserts, and answers 201 with the created user and
a token minted over it. The generated avatar, verify token, assigned id,
and the two timestamp strings enter as parameters; the effective signing
secret is `TOKEN_SECRET or ""`. -/
def signup (db : List Doc) (data : Doc) (salt : Nat)
    (avatar verifyToken newId createdIso updatedIso secret : String) :
    Option (Resp × List Doc) :=
  match getKey data "fullName", getKey data "email", getKey data "password" with
  | some fullNameV, some emailV, some passwordV =>
    match findOne (fun d => mongoFieldEq d "email" emailV) db with
    | some _ => some (Resp.err "This email is already taken", db)
    | none =>
      match passwordV with
      | Val.vStr password =>
        let createdUser := signupDoc data fullNameV emailV password salt
          avatar verifyToken newId createdIso updatedIso
        some (Resp.okUser createdUser (jwtEncode createdUser secret), db ++ [createdUser])
      | _ => none
  | _, _, _ => none

/-- POST /auth/login. Looks the user up by the body email, answers 400 when
absent, otherwise checks the password against the stored bcrypt digest.
On a match the route stringifies the id and calls `.isoformat()` on the
stored `created_at` and `updated_at` before minting the token: when those
fields hold ISO strings rather than datetimes (as every signup-created
record does) the call raises AttributeError, modelled `none`. The route
never writes to the store, so it returns only the response. -/
def login (db : List Doc) (data : Doc) (secret : String) : Option Resp :=
  match getKey data "email" with
  | none => none
  | some emailV =>
    match findOne (fun d => mongoFieldEq d "email" emailV) db with
    | none => some (Resp.err "User not found")
    | some foundUser =>
      match getKey data "password", getKey foundUser "password" with
      | some (Val.vStr password), some (Val.vHash storedHash) =>
        if checkpw password storedHash then
          match isoformat (pyGet foundUser "created_at"),
              isoformat (pyGet foundUser "updated_at") with
          | some ca, some ua =>
            let u := insertKey (insertKey foundUser "created_at" ca) "updated_at" ua
            some (Resp.okUser u (jwtEncode u secret))
          | _, _ => none
        else some (Resp.err "Wrong password")
      | _, _ => none

/-- The Authorization header of GET /auth/loggedin after the split on
spaces: absent, a single word with no token part, or a scheme word followed
by a token. The serialized token wire format is abstracted to the `Jwt`
structure. -/
inductive AuthHeader where
  | missing : AuthHeader
  | raw : String → AuthHeader
  | bearerTok : String → Jwt → AuthHeader
deriving DecidableEq

/-- GET /auth/loggedin: 401 when the header is absent or not of the form
`Bearer token`; otherwise decodes the token with the shared secret,
answering the embedded user on success and 401 Invalid token when
`jwt.InvalidTokenError` is caught. -/
def logged_in (header : AuthHeader) (secret : String) : Resp :=
  match header with
  | AuthHeader.missing => Resp.err "Authorization header missing"
  | AuthHeader.raw _ => Resp.err "Invalid authorization header"
  | AuthHeader.bearerTok scheme tok =>
    if scheme = "Bearer" then
      match jwtDecode tok secret with
      | some u => Resp.okUserOnly u
      | none => Resp.err "Invalid token"
    else Resp.err "Invalid authorization header"

/-- PUT /auth/verify. Reads id and token from the body, finds the document
matching both the id and the verifyToken, sets verified on the store, and
answers 200 with a token minted over the document as fetched before the
update (the route passes no return-document option and reuses the fetched
dict), or 400 when no document matches both. -/
def verify (db : List Doc) (data : Doc) (secret : String) :
    Option (Resp × List Doc) :=
  match getKey data "id", getKey data "token" with
  | some (Val.vStr i), some tokenVal =>
    match findOne
        (fun d => mongoFieldEq d "_id" (Val.vStr i) &&
          mongoFieldEq d "verifyToken" tokenVal) db with
    | some user =>
      let db2 := updateFirst (fun d => mongoFieldEq d "_id" (Val.vStr i))
        [("verified", Val.vBool true)] db
      some (Resp.okUser user (jwtEncode user secret), db2)
    | none => some (Resp.err "User not found.", db)
  | _, _ => none

/-- POST /auth/forgot-password. Looks the user up by email; when found,
stores the freshly generated reset token on the record and answers a
generic acknowledgment; 400 otherwise. The generated token enters as a
parameter. -/
def forgot_password (db : List Doc) (data : Doc) (resetTokenGen : String) :
    Option (Resp × List Doc) :=
  match getKey data "email" with
  | none => none
  | some emailV =>
    match findOne (fun d => mongoFieldEq d "email" emailV) db with
    | some _ =>
      some (Resp.okMsg "Email has been sent!",
        updateFirst (fun d => mongoFieldEq d "email" emailV)
          [("resetToken", Val.vStr resetTokenGen)] db)
    | none => some (Resp.err "User not found", db)

/-- PUT /auth/reset-password. Reads the id, new password and supplied reset
token from the body, finds the user by id, compares the stored
`found_user.get("resetToken")` (Python None when absent) against the
supplied body value with Python inequality, and on a match overwrites the
password digest; the stored reset token itself is left untouched. -/
def reset_password (db : List Doc) (data : Doc) (salt : Nat) :
    Option (Resp × List Doc) :=
  match getKey data "_id", getKey data "password" with
  | some (Val.vStr i), some passwordV =>
    match findOne (fun d => mongoFieldEq d "_id" (Val.vStr i)) db with
    | some foundUser =>
      match getKey data "resetToken" with
      | none => none
      | some suppliedTok =>
        if pyGet foundUser "resetToken" ≠ suppliedTok then
          some (Resp.err "Reset token does not match", db)
        else
          match passwordV with
          | Val.vStr password =>
            some (Resp.okMsg "The new password has been saved!",
              updateFirst (fun d => mongoFieldEq d "_id" (Val.vStr i))
                [("password", Val.vHash (hashpw password salt))] db)
          | _ => none
    | none => some (Resp.err "User not found", db)
  | _, _ => none

/-- PUT /users/edit-account/id. Finds the user by the path id, applies the
whole request body as a raw Mongo `$set` patch, and answers 201 with the
post-update document and a token minted over it. A patch that would alter
the immutable `_id` makes the driver raise (modelled `none`); a patch
binding `_id` to its current value is a no-op the store accepts. -/
def edit_account (db : List Doc) (i : String) (data : Doc) (secret : String) :
    Option (Resp × List Doc) :=
  match findOne (fun d => mongoFieldEq d "_id" (Val.vStr i)) db with
  | none => some (Resp.err "User not found", db)
  | some found =>
    let idOk : Bool :=
      match getKey data "_id" with
      | some v => decide (getKey found "_id" = some v)
      | none => true
    if idOk then
      let db2 := updateFirst (fun d => mongoFieldEq d "_id" (Val.vStr i)) data db
      match findOne (fun d => mongoFieldEq d "_id" (Val.vStr i)) db2 with
      | some updatedUser =>
        some (Resp.okUser updatedUser (jwtEncode updatedUser secret), db2)
      | none => none
    else none

/-- PUT /users/edit-password/id. Finds the user by the path id, checks the
body oldPassword against the stored digest, and on a match overwrites the
digest with the hash of the body newPassword, answering 201 with the
post-update document and a fresh token; on a mismatch answers 400 without
touching the store. -/
def edit_password (db : List Doc) (i : String) (data : Doc) (salt : Nat)
    (secret : String) : Option (Resp × List Doc) :=
  match findOne (fun d => mongoFieldEq d "_id" (Val.vStr i)) db with
  | none => some (Resp.err "User not found", db)
  | some foundUser =>
    match getKey data "oldPassword", getKey foundUser "password" with
    | some (Val.vStr oldPassword), some (Val.vHash storedHash) =>
      if checkpw oldPassword storedHash then
        match getKey data "newPassword" with
        | some (Val.vStr newPassword) =>
          let db2 := updateFirst (fun d => mongoFieldEq d "_id" (Val.vStr i))
            [("password", Val.vHash (hashpw newPassword salt))] db
          match findOne (fun d => mongoFieldEq d "_id" (Val.vStr i)) db2 with
          | some updatedUser =>
            some (Resp.okUser updatedUser (jwtEncode updatedUser secret), db2)
          | none => none
        | _ => none
      else some (Resp.err "Old password does not match", db)
    | _, _ => none

/-! Helper lemmas about the document and store operations. -/

theorem getKey_insertKey_self (d : Doc) (k : String) (v : Val) :
    getKey (insertKey d k v) k = some v := by
  induction d with
  | nil => simp [insertKey, getKey]
  | cons kv rest ih =>
    by_cases h : kv.1 = k
    · simp [insertKey, getKey, h]
    · simp [insertKey, getKey, h, ih]

theorem getKey_insertKey_ne (d : Doc) (k k2 : String) (v : Val) (hne : k2 ≠ k) :
    getKey (insertKey d k v) k2 = getKey d k2 := by
  induction d with
  | nil => simp [insertKey, getKey, Ne.symm hne]
  | cons kv rest ih =>
    by_cases h : kv.1 = k
    · simp [insertKey, getKey, h, Ne.symm hne]
    · by_cases h2 : kv.1 = k2
      · simp [insertKey, getKey, h, h2, hne]
      · simp [insertKey, getKey, h, h2, ih]

theorem setFields_single (d : Doc) (k : String) (v : Val) :
    setFields d [(k, v)] = insertKey d k v := rfl

theorem findOne_some_pred (p : Doc → Bool) (db : List Doc) (d : Doc)
    (h : findOne p db = some d) : p d = true := by
  induction db with
  | nil => simp [findOne] at h
  | cons hd tl ih =>
    by_cases hp : p hd
    · simp [findOne, hp] at h
      rw [← h]
      exact hp
    · simp [findOne, hp] at h
      exact ih h

theorem findOne_updateFirst (p : Doc → Bool) (patch : Doc) (db : List Doc) (d : Doc)
    (hfind : findOne p db = some d) (hp : p (setFields d patch) = true) :
    findOne p (updateFirst p patch db) = some (setFields d patch) := by
  induction db with
  | nil => simp [findOne] at hfind
  | cons hd tl ih =>
    by_cases hph : p hd
    · simp [findOne, hph] at hfind
      subst hfind
      simp [updateFirst, hph, findOne, hp]
    · simp [findOne, hph] at hfind
      simp [updateFirst, hph, findOne, ih hfind]

/-! Concrete fixtures used by the evaluation theorems and witnesses. -/

/-- Signup body of the running example user. -/
def adaSignupData : Doc :=
  [("fullName", Val.vStr "Ada"), ("email", Val.vStr "ada@x.com"),
   ("password", Val.vStr "Secret123")]

/-- Login body with the same credentials as `adaSignupData`. -/
def adaLoginData : Doc :=
  [("email", Val.vStr "ada@x.com"), ("password", Val.vStr "Secret123")]

/-- A stored, not yet verified user record, shaped as signup writes it except
that the timestamps are datetimes as the seed script stores them. -/
def bobUnverified : Doc :=
  [("_id", Val.vStr "idb"), ("fullName", Val.vStr "Bob"),
   ("email", Val.vStr "bob@x.com"),
   ("password", Val.vHash (hashpw "Secret123" 0)), ("avatar", Val.vStr "a"),
   ("role", Val.vStr "user"), ("verified", Val.vBool false),
   ("verifyToken", Val.vStr "VT1"),
   ("created_at", Val.vDate "t0"), ("updated_at", Val.vDate "t0")]

/-- A stored user record holding a reset token issued by forgot-password. -/
def carolWithReset : Doc :=
  [("_id", Val.vStr "idc"), ("fullName", Val.vStr "Carol"),
   ("email", Val.vStr "carol@x.com"),
   ("password", Val.vHash (hashpw "OldPass1" 0)), ("avatar", Val.vStr "a"),
   ("role", Val.vStr "user"), ("verified", Val.vBool true),
   ("verifyToken", Val.vStr "VT2"), ("resetToken", Val.vStr "RT"),
   ("created_at", Val.vDate "t0"), ("updated_at", Val.vDate "t0")]

/-- A stored user record with role user and no reset token. -/
def daveUser : Doc :=
  [("_id", Val.vStr "idd"), ("fullName", Val.vStr "Dave"),
   ("email", Val.vStr "dave@x.com"),
   ("password", Val.vHash (hashpw "Secret123" 0)), ("avatar", Val.vStr "a"),
   ("role", Val.vStr "user"), ("verified", Val.vBool true),
   ("verifyToken", Val.vStr "VT3"),
   ("created_at", Val.vDate "t0"), ("updated_at", Val.vDate "t0")]

/-- C1: the claim says that after a valid signup with a fresh email, login
with the same credentials succeeds and returns a token embedding that email.
On the code this fails: signup stores the timestamps as ISO strings, and
login then calls isoformat on the stored string, raising AttributeError
(modelled as the `none` result) instead of answering 201 with a token. -/
theorem c1_login_after_signup_crashes :
    ∃ u tok db1,
      signup [] adaSignupData 0 "avatar0" "VT0" "id1"
          "2025-01-01T00:00:00+00:00" "2025-01-01T00:00:00+00:00" "secret0"
        = some (Resp.okUser u tok, db1) ∧
      login db1 adaLoginData "secret0" = none :=
  ⟨_, _, _, rfl, by decide⟩

/-- C2: the claim says a matching verify marks the record verified, mints the
token over the post-update snapshot, and returns a snapshot with
verified true. On the code the store is updated, but the token and response
reuse the snapshot fetched before the update, whose verified is still
false. -/
theorem c2_verify_mints_pre_update_snapshot :
    ∃ db2,
      verify [bobUnverified] [("id", Val.vStr "idb"), ("token", Val.vStr "VT1")] "s"
        = some (Resp.okUser bobUnverified (jwtEncode bobUnverified "s"), db2) ∧
      getKey bobUnverified "verified" = some (Val.vBool false) ∧
      (findOne (fun d => mongoFieldEq d "_id" (Val.vStr "idb")) db2).map
          (fun d => getKey d "verified") = some (some (Val.vBool true)) :=
  ⟨_, rfl, by decide, by decide⟩

/-- C3: the claim says a successful reset-password clears or invalidates the
stored reset token. On the code the update writes only the password digest:
the reset token survives, and the very same token resets the password a
second time. -/
theorem c3_reset_token_survives_reset :
    ∃ db2 db3,
      reset_password [carolWithReset]
          [("_id", Val.vStr "idc"), ("password", Val.vStr "NewPass1"),
           ("resetToken", Val.vStr "RT")] 1
        = some (Resp.okMsg "The new password has been saved!", db2) ∧
      (findOne (fun d => mongoFieldEq d "_id" (Val.vStr "idc")) db2).map
          (fun d => getKey d "resetToken") = some (some (Val.vStr "RT")) ∧
      reset_password db2
          [("_id", Val.vStr "idc"), ("password", Val.vStr "NewPass2"),
           ("resetToken", Val.vStr "RT")] 2
        = some (Resp.okMsg "The new password has been saved!", db3) :=
  ⟨_, _, rfl, by decide, rfl⟩

/-- C4: the claim says self-service edit-account never changes the stored
role. On the code the whole request body is applied as a raw update, so a
body carrying a role field overwrites the stored role, here from user to
admin, both in the response and in the store. -/
theorem c4_edit_account_changes_role :
    ∃ u tok db2,
      edit_account [daveUser] "idd" [("role", Val.vStr "admin")] "s"
        = some (Resp.okUser u tok, db2) ∧
      getKey daveUser "role" = some (Val.vStr "user") ∧
      getKey u "role" = some (Val.vStr "admin") ∧
      (findOne (fun d => mongoFieldEq d "_id" (Val.vStr "idd")) db2).map
          (fun d => getKey d "role") = some (some (Val.vStr "admin")) :=
  ⟨_, _, _, rfl, by decide, by decide, by decide⟩

/-- C5: edit-password with an old password whose bcrypt check fails answers
the old-password-mismatch error and returns the store exactly as it was, so
the stored digest and the rest of the record are unchanged. -/
theorem c5_edit_password_wrong_old_unchanged
    (db : List Doc) (i : String) (data foundUser : Doc) (salt : Nat)
    (secret oldPassword : String) (storedHash : Bcrypt)
    (hfind : findOne (fun d => mongoFieldEq d "_id" (Val.vStr i)) db = some foundUser)
    (hold : getKey data "oldPassword" = some (Val.vStr oldPassword))
    (hstored : getKey foundUser "password" = some (Val.vHash storedHash))
    (hchk : checkpw oldPassword storedHash = false) :
    edit_password db i data salt secret
      = some (Resp.err "Old password does not match", db) := by
  simp [edit_password, hfind, hold, hstored, hchk]

/-- C5 witness: concrete store and request exercising the theorem. -/
theorem c5_edit_password_wrong_old_unchanged_witness :
    findOne (fun d => mongoFieldEq d "_id" (Val.vStr "idd")) [daveUser]
        = some daveUser ∧
    checkpw "Wrong1" (hashpw "Secret123" 0) = false ∧
    edit_password [daveUser] "idd"
        [("oldPassword", Val.vStr "Wrong1"), ("newPassword", Val.vStr "NewP1")] 5 "s"
      = some (Resp.err "Old password does not match", [daveUser]) :=
  ⟨by decide, by decide,
    c5_edit_password_wrong_old_unchanged [daveUser] "idd"
      [("oldPassword", Val.vStr "Wrong1"), ("newPassword", Val.vStr "NewP1")]
      daveUser 5 "s" "Wrong1" (hashpw "Secret123" 0)
      (by decide) (by decide) (by decide) (by decide)⟩

/-- C6: reset-password for a user whose record carries no stored reset token
mismatches any supplied non-empty token string, answers the token-mismatch
error, and returns the store exactly as it was. -/
theorem c6_reset_password_absent_token_mismatch
    (db : List Doc) (i t : String) (data foundUser : Doc) (passwordV : Val)
    (salt : Nat)
    (hid : getKey data "_id" = some (Val.vStr i))
    (hpw : getKey data "password" = some passwordV)
    (hfind : findOne (fun d => mongoFieldEq d "_id" (Val.vStr i)) db = some foundUser)
    (hstored : getKey foundUser "resetToken" = none)
    (hsup : getKey data "resetToken" = some (Val.vStr t))
    (hne : t ≠ "") :
    reset_password db data salt
      = some (Resp.err "Reset token does not match", db) := by
  have hmis : pyGet foundUser "resetToken" ≠ Val.vStr t := by
    simp [pyGet, hstored]
  simp [reset_password, hid, hpw, hfind, hsup, hmis]

/-- C6 witness: concrete store with no stored reset token and a non-empty
supplied token. -/
theorem c6_reset_password_absent_token_mismatch_witness :
    getKey daveUser "resetToken" = none ∧ ("sometoken" : String) ≠ "" ∧
    reset_password [daveUser]
        [("_id", Val.vStr "idd"), ("password", Val.vStr "NewP1"),
         ("resetToken", Val.vStr "sometoken")] 3
      = some (Resp.err "Reset token does not match", [daveUser]) :=
  ⟨by decide, by decide,
    c6_reset_password_absent_token_mismatch [daveUser] "idd" "sometoken"
      [("_id", Val.vStr "idd"), ("password", Val.vStr "NewP1"),
       ("resetToken", Val.vStr "sometoken")]
      daveUser (Val.vStr "NewP1") 3
      (by decide) (by decide) (by decide) (by decide) (by decide) (by decide)⟩

/-- C7: session-token round trip. Decoding a token minted over any user
snapshot with the same secret through the loggedin route succeeds and
returns exactly the embedded snapshot, so every public field agrees. -/
theorem c7_session_token_round_trip (u : Doc) (secret : String) :
    logged_in (AuthHeader.bearerTok "Bearer" (jwtEncode u secret)) secret
      = Resp.okUserOnly u := by
  simp [logged_in, jwtEncode, jwtDecode]

/-- C8: a session token minted under one secret never verifies under a
different secret; the loggedin route answers the invalid-token error and
never a snapshot. -/
theorem c8_cross_secret_token_rejected (u : Doc) (s s2 : String)
    (hne : s ≠ s2) :
    logged_in (AuthHeader.bearerTok "Bearer" (jwtEncode u s)) s2
      = Resp.err "Invalid token" := by
  simp [logged_in, jwtEncode, jwtDecode, hne]

/-- C8 witness: two concrete distinct secrets. -/
theorem c8_cross_secret_token_rejected_witness :
    ("secretA" : String) ≠ "secretB" ∧
    logged_in (AuthHeader.bearerTok "Bearer" (jwtEncode bobUnverified "secretA"))
        "secretB" = Resp.err "Invalid token" :=
  ⟨by decide, c8_cross_secret_token_rejected bobUnverified "secretA" "secretB" (by decide)⟩

/-- C9: implicit behavior of reset-password for a user with no stored reset
token when the body carries resetToken null: Python None equals None, so the
mismatch guard passes, the digest is overwritten with the hash of the new
password, and the route reports success rather than the token-mismatch
error. -/
theorem c9_reset_password_null_token_overwrites
    (db : List Doc) (i pw : String) (data foundUser : Doc) (salt : Nat)
    (hid : getKey data "_id" = some (Val.vStr i))
    (hpw : getKey data "password" = some (Val.vStr pw))
    (hfind : findOne (fun d => mongoFieldEq d "_id" (Val.vStr i)) db = some foundUser)
    (hstored : getKey foundUser "resetToken" = none)
    (hsup : getKey data "resetToken" = some Val.vNull) :
    reset_password db data salt
      = some (Resp.okMsg "The new password has been saved!",
          updateFirst (fun d => mongoFieldEq d "_id" (Val.vStr i))
            [("password", Val.vHash (hashpw pw salt))] db) ∧
    findOne (fun d => mongoFieldEq d "_id" (Val.vStr i))
        (updateFirst (fun d => mongoFieldEq d "_id" (Val.vStr i))
          [("password", Val.vHash (hashpw pw salt))] db)
      = some (insertKey foundUser "password" (Val.vHash (hashpw pw salt))) := by
  constructor
  · have heq : pyGet foundUser "resetToken" = Val.vNull := by
      simp [pyGet, hstored]
    simp [reset_password, hid, hpw, hfind, hsup, heq]
  · have hpd := findOne_some_pred _ _ _ hfind
    have hp2 : mongoFieldEq
        (setFields foundUser [("password", Val.vHash (hashpw pw salt))])
        "_id" (Val.vStr i) = true := by
      rw [setFields_single]
      simp [mongoFieldEq] at hpd ⊢
      rw [getKey_insertKey_ne _ _ _ _ (by decide)]
      exact hpd
    have h3 := findOne_updateFirst _ _ _ _ hfind hp2
    rw [setFields_single] at h3
    exact h3

/-- C9 witness: concrete store with no stored reset token and a null supplied
token; the reset succeeds and overwrites the digest. -/
theorem c9_reset_password_null_token_overwrites_witness :
    getKey daveUser "resetToken" = none ∧
    (reset_password [daveUser]
        [("_id", Val.vStr "idd"), ("password", Val.vStr "NewP9"),
         ("resetToken", Val.vNull)] 9
      = some (Resp.okMsg "The new password has been saved!",
          updateFirst (fun d => mongoFieldEq d "_id" (Val.vStr "idd"))
            [("password", Val.vHash (hashpw "NewP9" 9))] [daveUser]) ∧
    findOne (fun d => mongoFieldEq d "_id" (Val.vStr "idd"))
        (updateFirst (fun d => mongoFieldEq d "_id" (Val.vStr "idd"))
          [("password", Val.vHash (hashpw "NewP9" 9))] [daveUser])
      = some (insertKey daveUser "password" (Val.vHash (hashpw "NewP9" 9)))) :=
  ⟨by decide,
    c9_reset_password_null_token_overwrites [daveUser] "idd" "NewP9"
      [("_id", Val.vStr "idd"), ("password", Val.vStr "NewP9"),
       ("resetToken", Val.vNull)]
      daveUser 9 (by decide) (by decide) (by decide) (by decide) (by decide)⟩

/-- C10: every record created by signup carries role user, verified false,
the freshly generated verify token, and the bcrypt digest of the submitted
password in the password field, even when the body itself supplies values
for those fields, since the controlled fields are written after the body is
spread; every body field outside the controlled set is persisted verbatim,
and the stored record is the returned one, appended to the store. -/
theorem c10_signup_fixed_fields
    (db : List Doc) (data : Doc) (salt : Nat)
    (avatar verifyToken newId createdIso updatedIso secret : String)
    (fullNameV emailV : Val) (pw : String)
    (hfn : getKey data "fullName" = some fullNameV)
    (hem : getKey data "email" = some emailV)
    (hpw : getKey data "password" = some (Val.vStr pw))
    (hnew : findOne (fun d => mongoFieldEq d "email" emailV) db = none) :
    signup db data salt avatar verifyToken newId createdIso updatedIso secret
      = some (Resp.okUser
          (signupDoc data fullNameV emailV pw salt avatar verifyToken newId
            createdIso updatedIso)
          (jwtEncode (signupDoc data fullNameV emailV pw salt avatar verifyToken
            newId createdIso updatedIso) secret),
        db ++ [signupDoc data fullNameV emailV pw salt avatar verifyToken newId
          createdIso updatedIso]) ∧
    getKey (signupDoc data fullNameV emailV pw salt avatar verifyToken newId
        createdIso updatedIso) "role" = some (Val.vStr "user") ∧
    getKey (signupDoc data fullNameV emailV pw salt avatar verifyToken newId
        createdIso updatedIso) "verified" = some (Val.vBool false) ∧
    getKey (signupDoc data fullNameV emailV pw salt avatar verifyToken newId
        createdIso updatedIso) "verifyToken" = some (Val.vStr verifyToken) ∧
    getKey (signupDoc data fullNameV emailV pw salt avatar verifyToken newId
        createdIso updatedIso) "password" = some (Val.vHash (hashpw pw salt)) ∧
    ∀ k, k ∉ (["fullName", "email", "password", "avatar", "role", "verified",
        "verifyToken", "created_at", "updated_at", "_id"] : List String) →
      getKey (signupDoc data fullNameV emailV pw salt avatar verifyToken newId
        createdIso updatedIso) k = getKey data k := by
  refine ⟨?_, ?_, ?_, ?_, ?_, ?_⟩
  · simp [signup, hfn, hem, hpw, hnew]
  · simp only [signupDoc]
    rw [getKey_insertKey_ne _ _ _ _ (by decide), getKey_insertKey_ne _ _ _ _ (by decide),
        getKey_insertKey_ne _ _ _ _ (by decide), getKey_insertKey_ne _ _ _ _ (by decide),
        getKey_insertKey_ne _ _ _ _ (by decide), getKey_insertKey_self]
  · simp only [signupDoc]
    rw [getKey_insertKey_ne _ _ _ _ (by decide), getKey_insertKey_ne _ _ _ _ (by decide),
        getKey_insertKey_ne _ _ _ _ (by decide), getKey_insertKey_ne _ _ _ _ (by decide),
        getKey_insertKey_self]
  · simp only [signupDoc]
    rw [getKey_insertKey_ne _ _ _ _ (by decide), getKey_insertKey_ne _ _ _ _ (by decide),
        getKey_insertKey_ne _ _ _ _ (by decide), getKey_insertKey_self]
  · simp only [signupDoc]
    rw [getKey_insertKey_ne _ _ _ _ (by decide), getKey_insertKey_ne _ _ _ _ (by decide),
        getKey_insertKey_ne _ _ _ _ (by decide), getKey_insertKey_ne _ _ _ _ (by decide),
        getKey_insertKey_ne _ _ _ _ (by decide), getKey_insertKey_ne _ _ _ _ (by decide),
        getKey_insertKey_ne _ _ _ _ (by decide), getKey_insertKey_self]
  · intro k hk
    simp only [List.mem_cons, List.not_mem_nil, or_false, not_or] at hk
    obtain ⟨h1, h2, h3, h4, h5, h6, h7, h8, h9, h10⟩ := hk
    simp only [signupDoc]
    rw [getKey_insertKey_ne _ _ _ _ h10, getKey_insertKey_ne _ _ _ _ h9,
        getKey_insertKey_ne _ _ _ _ h8, getKey_insertKey_ne _ _ _ _ h7,
        getKey_insertKey_ne _ _ _ _ h6, getKey_insertKey_ne _ _ _ _ h5,
        getKey_insertKey_ne _ _ _ _ h4, getKey_insertKey_ne _ _ _ _ h3,
        getKey_insertKey_ne _ _ _ _ h2, getKey_insertKey_ne _ _ _ _ h1]

/-- Signup body that also tries to smuggle role, verified, password and an
extra field into the created record. -/
def eveSignupData : Doc :=
  [("fullName", Val.vStr "Eve"), ("email", Val.vStr "eve@x.com"),
   ("password", Val.vStr "Secret123"), ("role", Val.vStr "admin"),
   ("verified", Val.vBool true), ("verifyToken", Val.vStr "forged"),
   ("nickname", Val.vStr "evil")]

/-- C10 witness: concrete adversarial signup body exercising the theorem. -/
theorem c10_signup_fixed_fields_witness :
    getKey eveSignupData "role" = some (Val.vStr "admin") ∧
    getKey eveSignupData "verified" = some (Val.vBool true) ∧
    (signup [] eveSignupData 7 "av7" "VT7" "id7" "T7" "T8" "s7"
      = some (Resp.okUser
          (signupDoc eveSignupData (Val.vStr "Eve") (Val.vStr "eve@x.com")
            "Secret123" 7 "av7" "VT7" "id7" "T7" "T8")
          (jwtEncode (signupDoc eveSignupData (Val.vStr "Eve")
            (Val.vStr "eve@x.com") "Secret123" 7 "av7" "VT7" "id7" "T7" "T8") "s7"),
        [] ++ [signupDoc eveSignupData (Val.vStr "Eve") (Val.vStr "eve@x.com")
          "Secret123" 7 "av7" "VT7" "id7" "T7" "T8"]) ∧
    getKey (signupDoc eveSignupData (Val.vStr "Eve") (Val.vStr "eve@x.com")
        "Secret123" 7 "av7" "VT7" "id7" "T7" "T8") "role"
      = some (Val.vStr "user") ∧
    getKey (signupDoc eveSignupData (Val.vStr "Eve") (Val.vStr "eve@x.com")
        "Secret123" 7 "av7" "VT7" "id7" "T7" "T8") "verified"
      = some (Val.vBool false) ∧
    getKey (signupDoc eveSignupData (Val.vStr "Eve") (Val.vStr "eve@x.com")
        "Secret123" 7 "av7" "VT7" "id7" "T7" "T8") "verifyToken"
      = some (Val.vStr "VT7") ∧
    getKey (signupDoc eveSignupData (Val.vStr "Eve") (Val.vStr "eve@x.com")
        "Secret123" 7 "av7" "VT7" "id7" "T7" "T8") "password"
      = some (Val.vHash (hashpw "Secret123" 7)) ∧
    ∀ k, k ∉ (["fullName", "email", "password", "avatar", "role", "verified",
        "verifyToken", "created_at", "updated_at", "_id"] : List String) →
      getKey (signupDoc eveSignupData (Val.vStr "Eve") (Val.vStr "eve@x.com")
        "Secret123" 7 "av7" "VT7" "id7" "T7" "T8") k = getKey eveSignupData k) :=
  ⟨by decide, by decide,
    c10_signup_fixed_fields [] eveSignupData 7 "av7" "VT7" "id7" "T7" "T8" "s7"
      (Val.vStr "Eve") (Val.vStr "eve@x.com") "Secret123"
      (by decide) (by decide) (by decide) rfl⟩
